import Mathlib

/-!
Verification development for the RTMP ingest/relay server
(`rtmp_original.py`, `RtmpMessage.py`).  The Python source is shallowly
embedded: mutable client state becomes explicit record passing, byte
strings become `List Nat` (each element one byte), exceptions that tear
the session down become `Except Unit` errors, and wall-clock bookkeeping
(`last_received_time`, `relativeTime`) is omitted because no observable
property below depends on it.
-/

deriving instance DecidableEq for Except

namespace RtmpServer

/-- `int.from_bytes(bs, byteorder='big')`: big-endian byte list to natural. -/
def beVal (bs : List Nat) : Nat :=
  bs.foldl (fun acc b => acc * 256 + b) 0

/-- Little-endian interpretation of a byte list.  This follows the words of
the specification ("the message stream id inside the fmt-0 header ... is
little-endian"); it is the reference the source's big-endian parse is
compared against for claim C9. -/
def leVal (bs : List Nat) : Nat :=
  bs.foldr (fun b acc => acc * 256 + b) 0

/-- `n.to_bytes(4, byteorder='big')`. -/
def natToBytes4BE (n : Nat) : List Nat :=
  [n / 16777216 % 256, n / 65536 % 256, n / 256 % 256, n % 256]

/-- Byte at index `i`, defaulting to 0 (callers establish the bound). -/
def byteAt (l : List Nat) (i : Nat) : Nat :=
  (l.drop i).headD 0

/-- Per-CSID reassembly slot, mirroring the dict built by `createPacket`
(`rtmp_original.py` lines 378-393). -/
structure Slot where
  fmt : Nat
  cid : Nat
  timestamp : Nat
  extended_timestamp : Nat
  payload_length : Nat
  msg_type_id : Nat
  msg_stream_id : Nat
  payload : List Nat
  deriving DecidableEq

/-- `createPacket(cid, fmt)` (lines 378-393): fresh slot, all header fields
zero, empty payload.  The wall-clock `last_received_time` field is omitted. -/
def createPacket (cid fmt : Nat) : Slot :=
  { fmt := fmt, cid := cid, timestamp := 0, extended_timestamp := 0,
    payload_length := 0, msg_type_id := 0, msg_stream_id := 0, payload := [] }

/-- The dict literal emitted to `handle_rtmp_packet` (lines 344-355). -/
structure RtmpPacket where
  fmt : Nat
  cid : Nat
  timestamp : Nat
  length : Nat
  type : Nat
  stream_id : Nat
  payload : List Nat
  deriving DecidableEq

/-- The slice of `ClientState` that `get_chunk_data` reads and writes:
`chunk_size`, `window_acknowledgement_size`, `inAckSize`, `inLastAck`,
`IncomingPackets` (as an association list keyed by CSID). -/
structure ChunkState where
  chunk_size : Nat
  window_acknowledgement_size : Nat
  inAckSize : Nat
  inLastAck : Nat
  slots : List (Nat × Slot)
  deriving DecidableEq

/-- Fresh-connection values of the chunk-codec fields
(`ClientState.__init__`, lines 82-84 and 108, 134-135). -/
def ChunkState.init : ChunkState :=
  { chunk_size := 128, window_acknowledgement_size := 5000000,
    inAckSize := 0, inLastAck := 0, slots := [] }

/-- `client_state.IncomingPackets[cid]` lookup. -/
def lookupSlot (slots : List (Nat × Slot)) (cid : Nat) : Option Slot :=
  match slots.find? (fun p => p.1 = cid) with
  | some p => some p.2
  | none => none

/-- `client_state.IncomingPackets[cid] = s` (insert or overwrite). -/
def insertSlot (slots : List (Nat × Slot)) (cid : Nat) (s : Slot) : List (Nat × Slot) :=
  match slots with
  | [] => [(cid, s)]
  | p :: rest => if p.1 = cid then (cid, s) :: rest else p :: insertSlot rest cid s

/-- `reader.readexactly(n)` over a finite byte list: the read bytes and the
rest, or an error (short read raises, and `get_chunk_data` converts every
exception into `DisconnectClientException`). -/
def readE (l : List Nat) (n : Nat) : Except Unit (List Nat × List Nat) :=
  if n ≤ l.length then Except.ok (l.take n, l.drop n) else Except.error ()

/-- Two-byte basic header (line 245): `cid = 64 + chunk_data[1]`. -/
def basicHeaderCsid2 (b1 : Nat) : Nat := 64 + b1

/-- Three-byte basic header as the source computes it (lines 248-249):
`cid = (64 + chunk_data[1] + chunk_data[2]) << 8`. -/
def basicHeaderCsid3 (b1 b2 : Nat) : Nat :=
  Nat.shiftLeft (64 + b1 + b2) 8

/-- Three-byte basic header as the specification words it:
`CSID = 64 + b1 + 256 * b2`.  Reference definition for claim C4, to be
compared against `basicHeaderCsid3`. -/
def specCsid3 (b1 b2 : Nat) : Nat := 64 + b1 + 256 * b2

/-- The acknowledgement accounting applied once per fully-read chunk that
carried payload: add the chunk's bytes to `inAckSize` (lines 315 and 323),
wrap both counters at 0xF0000000 (lines 333-335), then send an ACK when the
un-acknowledged span reaches the window (lines 361-364).  Returns the new
`(inAckSize, inLastAck)` pair and whether an ACK was emitted. -/
def ackAccount (w a l n : Nat) : Nat × Nat × Bool :=
  let a1 := a + n
  let p : Nat × Nat := if 4026531840 ≤ a1 then (0, 0) else (a1, l)
  if 0 < w ∧ w ≤ p.1 - p.2 then (p.1, p.1, true) else (p.1, p.2, false)

/-- Iterated acknowledgement accounting over a list of per-chunk byte
counts, starting from counters `(a, l)`; returns the final counters and the
number of ACK messages emitted. -/
def ackFold (w : Nat) : Nat → Nat → List Nat → Nat × Nat × Nat
  | a, l, [] => (a, l, 0)
  | a, l, n :: rest =>
    let s := ackAccount w a l n
    let r := ackFold w s.1 s.2.1 rest
    (r.1, r.2.1, r.2.2 + (if s.2.2 then 1 else 0))

/-- Basic-header parse (lines 236-252): returns `(cid, fmt, bytesUsed, rest)`. -/
def readBasicHeader (input : List Nat) :
    Except Unit (Nat × Nat × Nat × List Nat) := do
  let (h0, r0) ← readE input 1
  let b0 := byteAt h0 0
  let cid0 := Nat.land b0 63
  let fmt := Nat.shiftRight (Nat.land b0 192) 6
  if cid0 = 0 then do
    let (e, r) ← readE r0 1
    pure (basicHeaderCsid2 (byteAt e 0), fmt, 2, r)
  else if cid0 = 1 then do
    let (e, r) ← readE r0 2
    pure (basicHeaderCsid3 (byteAt e 0) (byteAt e 1), fmt, 3, r)
  else
    pure (cid0, fmt, 1, r0)

/-- Message-header parse for the slot (lines 261-288): timestamp for
fmt 0-2, length/type for fmt 0-1 (resetting the payload buffer), stream id
for fmt 0 — parsed big-endian exactly as the source does.  Returns the
updated slot, the header byte count, and the rest of the input. -/
def readMessageHeader (fmt : Nat) (slot : Slot) (input : List Nat) :
    Except Unit (Slot × Nat × List Nat) := do
  let (slot1, h1, r1) ←
    if fmt ≤ 2 then do
      let (ts, r) ← readE input 3
      pure ({ slot with timestamp := beVal ts }, 3, r)
    else
      pure (slot, 0, input)
  let (slot2, h2, r2) ←
    if fmt ≤ 1 then do
      let (len3, ra) ← readE r1 3
      let (ty1, rb) ← readE ra 1
      pure ({ slot1 with payload_length := beVal len3, msg_type_id := beVal ty1,
                         payload := [] }, 4, rb)
    else
      pure (slot1, 0, r1)
  if fmt = 0 then do
    let (sid, r) ← readE r2 4
    pure ({ slot2 with msg_stream_id := beVal sid }, h1 + h2 + 4, r)
  else
    pure (slot2, h1 + h2, r2)

/-- Extended-timestamp read (lines 306-313): when the 3-byte field is
0xFFFFFF, 4 more bytes are read and recorded in `extended_timestamp`;
the `timestamp` field is not touched. -/
def readExtendedTimestamp (slot : Slot) (input : List Nat) :
    Except Unit (Slot × Nat × List Nat) :=
  if slot.timestamp = 16777215 then do
    let (ext, r) ← readE input 4
    pure ({ slot with extended_timestamp := beVal ext }, 4, r)
  else
    pure (slot, 0, input)

/-- Payload read, wrap check, completion check and ACK check
(lines 320-364) for a chunk whose remaining payload is nonzero. -/
def finishChunk (st : ChunkState) (cid : Nat) (slot : Slot)
    (payloadRemaining : Nat) (input : List Nat) (consumedBefore : Nat) :
    Except Unit (ChunkState × Option RtmpPacket × Option Nat × Nat) := do
  let n := min st.chunk_size payloadRemaining
  let (pl, _) ← readE input n
  let st2 := { st with inAckSize := st.inAckSize + n }
  let slot5 := { slot with payload := slot.payload ++ pl }
  let st3 :=
    if 4026531840 ≤ st2.inAckSize then { st2 with inAckSize := 0, inLastAck := 0 }
    else st2
  let (packetOpt, slot6) :=
    if slot5.payload_length ≤ slot5.payload.length then
      (some { fmt := slot5.fmt, cid := slot5.cid, timestamp := slot5.timestamp,
              length := slot5.payload_length, type := slot5.msg_type_id,
              stream_id := slot5.msg_stream_id, payload := slot5.payload },
       { slot5 with payload := [] })
    else (none, slot5)
  let st4 := { st3 with slots := insertSlot st3.slots cid slot6 }
  if 0 < st4.window_acknowledgement_size ∧
     st4.window_acknowledgement_size ≤ st4.inAckSize - st4.inLastAck then
    pure ({ st4 with inLastAck := st4.inAckSize }, packetOpt, some st4.inAckSize,
          consumedBefore + n)
  else
    pure (st4, packetOpt, none, consumedBefore + n)

/-- One call of `get_chunk_data` (lines 229-368): read one chunk from
`input`, update the reassembly slot, and return the new state, the emitted
packet (if a message completed), the ACK value sent (if any), and the
number of bytes consumed.  `Except.error ()` stands for the
`DisconnectClientException` raised by the blanket handler. -/
def get_chunk_data (st : ChunkState) (input : List Nat) :
    Except Unit (ChunkState × Option RtmpPacket × Option Nat × Nat) := do
  let (cid, fmt, basicLen, r1) ← readBasicHeader input
  let slot0 :=
    match lookupSlot st.slots cid with
    | some s => s
    | none => createPacket cid fmt
  let (slot3, hLen, r4) ← readMessageHeader fmt slot0 r1
  -- remaining payload (lines 290-299)
  let payloadRemaining :=
    if fmt ≤ 1 then slot3.payload_length
    else slot3.payload_length - slot3.payload.length
  -- message type validation (lines 301-304)
  if 22 < slot3.msg_type_id then throw () else do
  let (slot4, extLen, r5) ← readExtendedTimestamp slot3 r4
  let chunkFullLen := basicLen + hLen + extLen
  let st1 := { st with inAckSize := st.inAckSize + chunkFullLen }
  if payloadRemaining = 0 then
    -- zero-length path (lines 326-331): clear the payload and return
    -- without the wrap or ACK checks
    pure ({ st1 with slots := insertSlot st1.slots cid { slot4 with payload := [] } },
          none, none, chunkFullLen)
  else
    finishChunk st1 cid slot4 payloadRemaining r5 chunkFullLen

/-- AMF0 values as carried by command and data messages.  AMF0 numbers are
IEEE-754 doubles on the wire; they are modelled as integers because every
claim below treats them as identifiers or whole-number metadata, never
arithmetically. -/
inductive Amf0 where
  | num (n : Int)
  | str (s : String)
  | boolean (b : Bool)
  | nul
  | obj (fields : List (String × Amf0))

/-- Python `value == "literal"` for a decoded AMF0 value: true only for an
equal string. -/
def amfIsStr (v : Amf0) (s : String) : Bool :=
  match v with
  | Amf0.str t => t = s
  | _ => false

/-- Field access `value[key]` on a decoded AMF0 object: `none` models both
`KeyError` (missing key) and `TypeError` (not an object). -/
def objGet (v : Amf0) (k : String) : Option Amf0 :=
  match v with
  | Amf0.obj fs =>
    match fs.find? (fun p => p.1 = k) with
    | some p => some p.2
    | none => none
  | _ => none

/-- Python `int(value)` on an AMF0 value: numbers and booleans convert,
numeric strings parse, everything else raises (`none`). -/
def amfToInt (v : Amf0) : Option Int :=
  match v with
  | Amf0.num n => some n
  | Amf0.str s => s.toInt?
  | Amf0.boolean b => some (if b then 1 else 0)
  | _ => none

/-- Python truthiness of a decoded AMF0 value (used by
`2 if dataObj['stereo'] else 1`). -/
def amfTruthy (v : Amf0) : Bool :=
  match v with
  | Amf0.num n => n ≠ 0
  | Amf0.str s => s ≠ ""
  | Amf0.boolean b => b
  | Amf0.nul => false
  | Amf0.obj _ => true

/-- `RTMPMessage` (`RtmpMessage.py` lines 7-12): built from an rtmp_packet
dict; note the stream id is copied from the packet header unchanged. -/
structure RTMPMessage where
  streamId : Nat
  type : Nat
  data : List Nat
  size : Nat
  time : Nat
  deriving DecidableEq

/-- `RTMPMessage.__init__` field for field. -/
def RTMPMessage.ofPacket (p : RtmpPacket) : RTMPMessage :=
  { streamId := p.stream_id, type := p.type, data := p.payload,
    size := p.length, time := p.timestamp }

/-- The slice of `ClientState` used by the media handlers
(`handle_audio_data`, `handle_video_data`, `handle_amf_data`).  The
codec-name / profile-name strings and the AVC/AAC config numbers produced
by the absent `av.py` / `common.py` helpers are omitted: no claim mentions
them. -/
structure ClientMediaState where
  app : String
  metaDataPayload : Option (List Nat)
  metaData : Option Amf0
  audioSampleRate : Int
  audioChannels : Int
  videoWidth : Int
  videoHeight : Int
  videoFps : Int
  Bitrate : Int
  isFirstAudioReceived : Bool
  aacSequenceHeader : Option (List Nat)
  avcSequenceHeader : Option (List Nat)
  audioCodec : Nat
  videoCodec : Nat

/-- Fresh-connection media fields (`ClientState.__init__`, lines 111-132). -/
def ClientMediaState.init (app : String) : ClientMediaState :=
  { app := app, metaDataPayload := none, metaData := none,
    audioSampleRate := 0, audioChannels := 1, videoWidth := 0,
    videoHeight := 0, videoFps := 0, Bitrate := 0,
    isFirstAudioReceived := false, aacSequenceHeader := none,
    avcSequenceHeader := none, audioCodec := 0, videoCodec := 0 }

/-- Modelled from the spec: `av.AUDIO_SOUND_RATE` (`av.py` is not under
`src/`).  The standard FLV sound-rate table; no claim depends on the
entries. -/
def audioSoundRate : List Nat := [5512, 11025, 22050, 44100]

/-- Codec bookkeeping of `handle_audio_data` (lines 619-665) applied after
the relay loop: first-audio codec/rate/channel recording with the special
sample-rate overrides, and the AAC / E-AC-3 sequence-header latch when the
second payload byte is zero.  The `av.read_aac_specific_config` profile
bookkeeping (absent `av.py`) touches only omitted fields.  The returned
flag is true when the Python code raises (payload index out of range). -/
def audioBookkeeping (st : ClientMediaState) (payload : List Nat) :
    ClientMediaState × Bool :=
  match payload.head? with
  | none => (st, true)
  | some b0 =>
    let sound_format := Nat.land (Nat.shiftRight b0 4) 15
    let sound_type := Nat.land b0 1
    let sound_rate := Nat.land (Nat.shiftRight b0 2) 3
    let st1 :=
      if st.audioCodec = 0 then
        let rate0 : Nat :=
          if sound_rate < audioSoundRate.length then
            (audioSoundRate.drop sound_rate).headD 0
          else 0
        let rate1 : Nat :=
          if sound_format = 4 then 16000
          else if sound_format = 5 ∨ sound_format = 7 ∨ sound_format = 8 then 8000
          else if sound_format = 11 then 16000
          else if sound_format = 14 then 8000
          else rate0
        { st with audioCodec := sound_format, audioSampleRate := rate1,
                  audioChannels := sound_type + 1 }
      else st
    if sound_format = 10 ∨ sound_format = 13 then
      match payload.drop 1 |>.head? with
      | none => (st1, true)
      | some b1 =>
        if b1 = 0 then
          let st2 := { st1 with isFirstAudioReceived := true,
                                aacSequenceHeader := some payload }
          if sound_format = 10 then (st2, false)
          else
            let st3 := { st2 with audioSampleRate := 48000 }
            match payload.drop 11 |>.head? with
            | none => (st3, true)
            | some c => ({ st3 with audioChannels := Int.ofNat c }, false)
        else (st1, false)
    else (st1, false)

/-- `handle_audio_data` (lines 594-665): first the relay loop — every
player currently registered for the session's app in `PlayerUsers` is sent
`RTMPMessage(rtmp_packet)` — then the codec bookkeeping.  `playerUsers`
models the global `PlayerUsers` dict as app name to list of player ids. -/
def handle_audio_data (playerUsers : String → Option (List String))
    (st : ClientMediaState) (pkt : RtmpPacket) :
    List (String × RTMPMessage) × ClientMediaState × Bool :=
  let sends :=
    match playerUsers st.app with
    | some players =>
      if players = [] then []
      else players.map (fun pid => (pid, RTMPMessage.ofPacket pkt))
    | none => []
  let (st1, failed) := audioBookkeeping st pkt.payload
  (sends, st1, failed)

/-- `l[i] = v` on a bytearray (index assignment; reachable uses below have
`i < l.length`). -/
def listSet (l : List Nat) (i v : Nat) : List Nat :=
  l.take i ++ [v] ++ l.drop (i + 1)

/-- `l[i:j] = v` on a bytearray (slice assignment). -/
def listSplice (l : List Nat) (i j : Nat) (v : List Nat) : List Nat :=
  l.take i ++ v ++ l.drop j

/-- `handle_video_data` (lines 477-592).  The relay block (lines 482-501)
is commented out in the source, so no message is sent to any player; the
function only rewrites enhanced-RTMP payloads, latches the video sequence
header on I-frames, and records the video codec.  The
`av.readAVCSpecificConfig` width/height bookkeeping (absent `av.py`, and
its `KeyError` is swallowed by the source) touches only omitted fields.
Returns (sends, new state, raised?). -/
def handle_video_data (st : ClientMediaState) (pkt : RtmpPacket) :
    List (String × RTMPMessage) × ClientMediaState × Bool :=
  match pkt.payload.head? with
  | none => ([], st, true)
  | some b0 =>
    let isExHeader := Nat.land (Nat.shiftRight b0 4) 8 ≠ 0
    let frame_type := Nat.land (Nat.shiftRight b0 4) 7
    let packetType := Nat.land b0 15
    let step :
        Option (Nat × List Nat) :=
      if isExHeader then
        let fourCC := (pkt.payload.drop 1).take 4
        if fourCC = [104, 118, 99, 49] then  -- b'hvc1'
          let pl :=
            if packetType = 0 then
              listSplice (listSet pkt.payload 0 28) 1 5 [0, 0, 0, 0]
            else if packetType = 1 ∨ packetType = 3 then
              let pl0 :=
                if packetType = 1 then pkt.payload.drop 3
                else listSplice pkt.payload 2 5 [0, 0, 0]
              listSet (listSet pl0 0 (Nat.lor (Nat.shiftLeft frame_type 4) 12)) 1 1
            else pkt.payload
          some (12, pl)
        else if fourCC = [97, 118, 48, 49] then  -- b'av01'
          let pl :=
            if packetType = 0 then
              listSplice (listSet pkt.payload 0 29) 1 5 [0, 0, 0, 0]
            else if packetType = 1 then
              listSplice
                (listSet (listSet pkt.payload 0
                  (Nat.lor (Nat.shiftLeft frame_type 4) 13)) 1 1) 2 5 [0, 0, 0]
            else pkt.payload
          some (13, pl)
        else none  -- unsupported extension header: early return
      else
        some (Nat.land b0 15, pkt.payload)
    match step with
    | none => ([], st, false)
    | some (codec_id, payload) =>
      if codec_id = 7 ∨ codec_id = 12 ∨ codec_id = 13 then
        -- the logging f-string at line 554 reads payload[1]
        match payload.drop 1 |>.head? with
        | none => ([], st, true)
        | some _ =>
          let st1 :=
            if frame_type = 1 then
              { st with avcSequenceHeader := some payload }
            else st
          let st2 :=
            if st1.videoCodec = 0 then { st1 with videoCodec := codec_id } else st1
          ([], st2, false)
      else
        let st2 :=
          if st.videoCodec = 0 then { st with videoCodec := codec_id } else st
        ([], st2, false)

/-- The sequential field assignments of `handle_amf_data` lines 1133-1140:
`metaDataPayload` is written first, then `metaData` from the `dataObj`
entry of the local dict — which raises `KeyError` when it was never set —
then the individual metadata numbers, each of which can raise.  The flag is
true when an exception escaped (partial updates are kept, as in Python). -/
def assignMeta (st : ClientMediaState) (payload : List Nat)
    (dataObj : Option Amf0) : ClientMediaState × Bool :=
  let stP := { st with metaDataPayload := some payload }
  match dataObj with
  | none => (stP, true)
  | some d =>
    let st1 := { stP with metaData := some d }
    match (objGet d "audiosamplerate").bind amfToInt with
    | none => (st1, true)
    | some v1 =>
      let st2 := { st1 with audioSampleRate := v1 }
      match objGet d "stereo" with
      | none => (st2, true)
      | some sv =>
        let st3 := { st2 with audioChannels := if amfTruthy sv then 2 else 1 }
        match (objGet d "width").bind amfToInt with
        | none => (st3, true)
        | some v2 =>
          let st4 := { st3 with videoWidth := v2 }
          match (objGet d "height").bind amfToInt with
          | none => (st4, true)
          | some v3 =>
            let st5 := { st4 with videoHeight := v3 }
            match (objGet d "framerate").bind amfToInt with
            | none => (st5, true)
            | some v4 =>
              let st6 := { st5 with videoFps := v4 }
              match (objGet d "videodatarate").bind amfToInt with
              | none => (st6, true)
              | some v5 => ({ st6 with Bitrate := v5 }, false)

/-- `handle_amf_data` (lines 1111-1141) for a DATA (18) or FLEX (17)
message.  The AMF0 decoding done by the absent `amf.py` is modelled from
the spec as the list `amfValues` of values decoded from the payload, read
in order; an exhausted list models the `EOFError` of a missing field, which
this handler does not catch.  Returns the final state (partial updates
kept) and whether an exception escaped — which `get_chunk_data` turns into
`DisconnectClientException`, tearing the session down. -/
def handle_amf_data (st : ClientMediaState) (pktType pktLength : Nat)
    (pktPayload : List Nat) (amfValues : List Amf0) :
    ClientMediaState × Bool :=
  let offset := if pktType = 17 then 1 else 0
  let payload := (pktPayload.drop offset).take (pktLength - offset)
  match amfValues with
  | [] => (st, true)
  | cmd :: rest =>
    if amfIsStr cmd "@setDataFrame" then
      match rest with
      | [] => (st, true)
      | ty :: rest2 =>
        if amfIsStr ty "onMetaData" then
          match rest2 with
          | [] => (st, true)
          | dataObj :: _ => assignMeta st payload (some dataObj)
        else (st, false)  -- early return at line 1125: state untouched
    else
      -- unsupported cmd: only a warning is logged, then line 1133 runs
      assignMeta st payload none

/-- The media fan-out of `handle_rtmp_packet` (lines 450-464): AUDIO (8)
goes through `handle_audio_data`'s relay loop, VIDEO (9) through
`handle_video_data` (whose relay block is commented out), DATA (18)
through `handle_amf_data` (which sends nothing). -/
def mediaRelaySends (playerUsers : String → Option (List String))
    (st : ClientMediaState) (pkt : RtmpPacket) : List (String × RTMPMessage) :=
  if pkt.type = 8 then (handle_audio_data playerUsers st pkt).1
  else if pkt.type = 9 then (handle_video_data st pkt).1
  else []

/-- A message on a player's wire, as far as the claims inspect it: either
the `onMetaData` DATA message built by `handle_onPlay` (lines 759-798;
its payload is the AMF0 encoding of the string `onMetaData` followed by
the publisher's `metaData` object, type 18, timestamp 0, on the play
request's stream id), or a relayed `RTMPMessage`. -/
inductive OutMsg where
  | meta (streamId : Nat) (md : Option Amf0)
  | media (m : RTMPMessage)

/-- The messages `handle_onPlay` (lines 722-800) writes to the newly
attached player: exactly one `onMetaData` message when the publisher has a
latched `metaDataPayload`, and nothing otherwise.  No audio or video
sequence header is sent anywhere in the function. -/
def onPlaySends (pub : ClientMediaState) (playStreamId : Nat) : List OutMsg :=
  match pub.metaDataPayload with
  | some _ => [OutMsg.meta playStreamId pub.metaData]
  | none => []

/-- Everything a player attached via `play` receives, in order: the
attach-time sends of `handle_onPlay`, followed by the relay of each
subsequent publisher AUDIO packet (each attached player receives
`RTMPMessage(rtmp_packet)` from `handle_audio_data`'s loop). -/
def playerReceives (pub : ClientMediaState) (playStreamId : Nat)
    (frames : List RtmpPacket) : List OutMsg :=
  onPlaySends pub playStreamId ++
    frames.map (fun p => OutMsg.media (RTMPMessage.ofPacket p))

/-- Checks the ordering demanded by claim C3 for one sequence header:
scanning the received messages, every media message that is not the header
itself (`hdr` verbatim) must be preceded by an earlier delivery of `hdr`. -/
def seqHdrPrecedes (hdr : List Nat) : Bool → List OutMsg → Bool
  | _, [] => true
  | seen, OutMsg.meta _ _ :: rest => seqHdrPrecedes hdr seen rest
  | seen, OutMsg.media m :: rest =>
    if m.data = hdr then seqHdrPrecedes hdr true rest
    else seen && seqHdrPrecedes hdr seen rest

/-- An entry of the global `LiveUsers` dict (lines 867-873). -/
structure LiveRecord where
  client_id : String
  stream_mode : String
  stream_path : String
  publish_stream_id : Nat
  app : String
  deriving DecidableEq

/-- One `onStatus` message produced by `sendStatusMessage`
(lines 892-906): stream id, level, code, description (details is always
None, the timestamp is wall-clock and omitted). -/
structure StatusMsg where
  sid : Nat
  level : String
  code : String
  description : String
  deriving DecidableEq

/-- The slice of `ClientState` that `handle_publish` reads and writes. -/
structure PubSession where
  id : String
  app : String
  streamPath : String
  publishStreamId : Nat
  publishStreamPath : String
  stream_mode : String
  deriving DecidableEq

/-- Result of `handle_publish`: the new `LiveUsers` registry, the mutated
session, the `onStatus` messages sent, and whether
`DisconnectClientException` was raised. -/
structure PublishResult where
  live : String → Option LiveRecord
  st : PubSession
  sent : List StatusMsg
  disconnected : Bool

/-- The duplicate-publisher test of lines 824 and 845:
`client_state.app in LiveUsers and LiveUsers[client_state.app].get('client_id')`
(a registered record with a truthy client id). -/
def liveHasPublisher (live : String → Option LiveRecord) (app : String) : Bool :=
  match live app with
  | some r => r.client_id ≠ ""
  | none => false

/-- `handle_publish` (lines 802-890).  `args` are the string arguments of
the invoke (an empty list makes `invoke['args'][0]` raise, disconnecting
without a status).  The three duplicate checks, the empty-key check, the
registration and the `NetStream.Publish.Start` reply are mirrored in
source order. -/
def handle_publish (live : String → Option LiveRecord) (st : PubSession)
    (args : List String) (packetStreamId : Nat) : PublishResult :=
  let st0 := { st with stream_mode := "live" }
  match args.head? with
  | none => ⟨live, st0, [], true⟩
  | some key =>
    let st1 := { st0 with streamPath := key, publishStreamId := packetStreamId }
    if liveHasPublisher live st1.app then
      ⟨live, st1,
        [⟨st1.publishStreamId, "error", "NetStream.Publish.BadName",
          "Stream already publishing"⟩], true⟩
    else
      let st2 := { st1 with publishStreamPath :=
        "/" ++ st1.app ++ "/" ++ ((key.splitOn "?").headD "") }
      if st2.streamPath = "" then
        ⟨live, st2,
          [⟨st2.publishStreamId, "error", "NetStream.publish.Unauthorized",
            "Authorization required."⟩], true⟩
      else if liveHasPublisher live st2.app then
        ⟨live, st2,
          [⟨st2.publishStreamId, "error", "NetStream.Publish.BadName",
            "Stream already publishing"⟩], true⟩
      else if st2.stream_mode = "live" ∧ (live st2.app).isSome then
        ⟨live, st2,
          [⟨st2.publishStreamId, "error", "NetStream.Publish.BadName",
            "Stream already publishing"⟩], true⟩
      else
        let live2 :=
          if st2.stream_mode = "live" then
            fun a => if a = st2.app then
              some ⟨st2.id, st2.stream_mode, st2.streamPath,
                    st2.publishStreamId, st2.app⟩
            else live a
          else live
        ⟨live2, st2,
          [⟨st2.publishStreamId, "status", "NetStream.Publish.Start",
            st2.streamPath ++ " is now published."⟩], false⟩

/-- The slice of `ClientState` read and written by
`handle_connect_command`. -/
structure ConnectSession where
  app : String
  tcUrl : String
  swfUrl : String
  flashVer : String
  objectEncoding : Nat
  out_chunk_size : Nat
  deriving DecidableEq

/-- The `connect` command object: `hasattr(invoke['cmdData'], f)` becomes
an `Option` per attribute. -/
structure CmdData where
  app : Option String
  tcUrl : Option String
  swfUrl : Option String
  flashVer : Option String
  objectEncoding : Option Nat
  deriving DecidableEq

/-- `send_window_ack` (lines 958-963): the 16-byte template
02 00 00 00 00 00 04 05 ... with bytes 12-15 replaced by the size,
big-endian. -/
def send_window_ack_bytes (size : Nat) : List Nat :=
  [2, 0, 0, 0, 0, 0, 4, 5, 0, 0, 0, 0] ++ natToBytes4BE size

/-- `send_ack` (lines 965-970): type byte 03, carrying the size. -/
def send_ack_bytes (size : Nat) : List Nat :=
  [2, 0, 0, 0, 0, 0, 4, 3, 0, 0, 0, 0] ++ natToBytes4BE size

/-- `set_peer_bandwidth` (lines 972-978): 17-byte template, bytes 12-15
the size big-endian, byte 16 the limit type. -/
def set_peer_bandwidth_bytes (size bandwidthType : Nat) : List Nat :=
  [2, 0, 0, 0, 0, 0, 5, 6, 0, 0, 0, 0] ++ natToBytes4BE size ++ [bandwidthType]

/-- `set_chunk_size` (lines 980-984): type byte 01, bytes 12-15 the chunk
size big-endian. -/
def set_chunk_size_bytes (outChunkSize : Nat) : List Nat :=
  [2, 0, 0, 0, 0, 0, 4, 1, 0, 0, 0, 0] ++ natToBytes4BE outChunkSize

/-- The `_result` argument object built by `respond_connect`
(lines 996-1012). -/
structure ConnectResultArg where
  level : String
  code : String
  description : String
  fmsVer : String
  capabilities : Nat
  objectEncoding : Nat
  deriving DecidableEq

/-- A message sent during connect handling: either one of the raw protocol
buffers, or the `_result` command (serialized by the absent `common.py`;
its observable fields are kept structured). -/
inductive ConnectSent where
  | raw (bs : List Nat)
  | result (tid : Nat) (arg : ConnectResultArg)
  deriving DecidableEq

/-- The `hasattr`-guarded attribute copies of lines 924-925 (just the
`app`, which the source records before the empty-app check). -/
def applyConnectApp (st : ConnectSession) (cmdData : CmdData) : ConnectSession :=
  match cmdData.app with | some a => { st with app := a } | none => st

/-- The `hasattr`-guarded attribute copies of lines 931-941 (`tcUrl`,
`swfUrl`, `flashVer`, `objectEncoding`), applied after the empty-app
check passes. -/
def applyConnectRest (st : ConnectSession) (cmdData : CmdData) : ConnectSession :=
  let st2 := match cmdData.tcUrl with
    | some v => { st with tcUrl := v } | none => st
  let st3 := match cmdData.swfUrl with
    | some v => { st2 with swfUrl := v } | none => st2
  let st4 := match cmdData.flashVer with
    | some v => { st3 with flashVer := v } | none => st3
  match cmdData.objectEncoding with
    | some v => { st4 with objectEncoding := v } | none => st4

/-- The session state after a successful `connect` has recorded every
present command-object attribute. -/
def connectAppliedState (st : ConnectSession) (cmdData : CmdData) : ConnectSession :=
  applyConnectRest (applyConnectApp st cmdData) cmdData

/-- `handle_connect_command` (lines 922-949) plus `respond_connect`
(lines 996-1012), continued: reject an empty app by raising
(`Except.error`, the `DisconnectClientException` of line 929), otherwise
send the window-ack, chunk-size and peer-bandwidth buffers followed by
the `_result` for the same transaction id. -/
def handle_connect_command (st : ConnectSession) (cmdData : CmdData)
    (tid : Nat) : Except Unit (ConnectSession × List ConnectSent) :=
  let st1 := applyConnectApp st cmdData
  if st1.app = "" then Except.error ()
  else
    let st5 := applyConnectRest st1 cmdData
    Except.ok (st5,
      [ConnectSent.raw (send_window_ack_bytes 5000000),
       ConnectSent.raw (set_chunk_size_bytes st5.out_chunk_size),
       ConnectSent.raw (set_peer_bandwidth_bytes 5000000 2),
       ConnectSent.result tid
         { level := "status", code := "NetConnection.Connect.Success",
           description := "Connection succeeded.",
           fmsVer := "MasterStream/8,2", capabilities := 31,
           objectEncoding := st5.objectEncoding }])

/-- Modelled from the spec: `handshake.detectClientMessageFormat`
(`handshake.py` is not under `src/`).  Per the spec, the simple format 0 is
recognized when the 8 bytes at offset 4 of C1 are zero; the digest formats
are collapsed to 1, since the caller only branches on whether the result
is 0. -/
def detectClientMessageFormat (c1 : List Nat) : Nat :=
  if ((c1.drop 4).take 8).all (fun b => b = 0) then 0 else 1

/-- Modelled from the spec: `handshake.generateS1` — 1536 bytes carrying a
server digest.  Its HMAC-SHA256 content is abstracted to zeros; no claim
inspects S1 bytes. -/
def generateS1 (_fmt : Nat) : List Nat := List.replicate 1536 0

/-- Modelled from the spec: `handshake.generateS2` — 1536 bytes whose last
32 are an HMAC over the rest; content abstracted to zeros, as no claim
inspects S2 bytes. -/
def generateS2 (_fmt : Nat) (_c1 : List Nat) : List Nat := List.replicate 1536 0

/-- Observable outcome of `perform_handshake`: whether the writer was
closed by the invalid-C0 branch, how many input bytes were consumed, and
the byte strings actually delivered to the peer, in order. -/
structure HandshakeResult where
  writerClosed : Bool
  consumed : Nat
  sent : List (List Nat)
  deriving DecidableEq

/-- `self.send` (lines 951-956): `writer.write(data)` followed by
`await writer.drain()`.  Once the writer has been closed and
`wait_closed` has returned, the transport discards the written bytes and
`drain` raises `ConnectionResetError`; otherwise the bytes are
delivered and appended to the transcript. -/
def sendDrain (closed : Bool) (sent : List (List Nat)) (data : List Nat) :
    Except Unit (List (List Nat)) :=
  if closed then Except.error () else Except.ok (sent ++ [data])

/-- A bare `writer.write` with no `drain` (line 419): it never raises; on
a closed transport the bytes are silently discarded, otherwise they are
delivered. -/
def writeNoDrain (closed : Bool) (sent : List (List Nat)) (data : List Nat) :
    List (List Nat) :=
  if closed then sent else sent ++ [data]

/-- `perform_handshake` (lines 395-422).  The invalid-C0 branch
(lines 400-402) closes the writer (awaiting `wait_closed`) but contains
no return or raise, so the function falls through and reads C1; on the
simple-format path the session then dies at the first `await self.send`
(line 409), whose `drain` raises `ConnectionResetError` on the closed
transport, so C2 is never read and S1/S2 are never reached.  Short reads
also raise.  Returns the observable outcome plus whether an exception
escaped (tearing the session down). -/
def perform_handshake (input : List Nat) : HandshakeResult × Bool :=
  match readE input 1 with
  | Except.error _ => (⟨false, 0, []⟩, true)
  | Except.ok (c0, r0) =>
    let closed := !(c0 == [3] || c0 == [6])
    match readE r0 1536 with
    | Except.error _ => (⟨closed, 1, []⟩, true)
    | Except.ok (c1, r1) =>
      if detectClientMessageFormat c1 = 0 then
        match sendDrain closed [] [3] with
        | Except.error _ => (⟨closed, input.length - r1.length, []⟩, true)
        | Except.ok sent1 =>
          match sendDrain closed sent1 c1 with
          | Except.error _ => (⟨closed, input.length - r1.length, sent1⟩, true)
          | Except.ok sent2 =>
            match readE r1 1536 with
            | Except.error _ => (⟨closed, input.length - r1.length, sent2⟩, true)
            | Except.ok (_, r2) =>
              match sendDrain closed sent2 c1 with
              | Except.error _ => (⟨closed, input.length - r2.length, sent2⟩, true)
              | Except.ok sent3 => (⟨closed, input.length - r2.length, sent3⟩, false)
      else
        let s1 := generateS1 (detectClientMessageFormat c1)
        let s2 := generateS2 (detectClientMessageFormat c1) c1
        let sent1 := writeNoDrain closed [] ([3] ++ s1 ++ s2)
        match readE r1 s1.length with
        | Except.error _ => (⟨closed, input.length - r1.length, sent1⟩, true)
        | Except.ok (_, r2) => (⟨closed, input.length - r2.length, sent1⟩, false)

/-- The packet handed to `handle_rtmp_packet`, if the chunk completed a
message. -/
def emittedPacket
    (r : Except Unit (ChunkState × Option RtmpPacket × Option Nat × Nat)) :
    Option RtmpPacket :=
  match r with
  | Except.ok x => x.2.1
  | Except.error _ => none

/-- The ACK value sent after the chunk, if any. -/
def ackSent
    (r : Except Unit (ChunkState × Option RtmpPacket × Option Nat × Nat)) :
    Option Nat :=
  match r with
  | Except.ok x => x.2.2.1
  | Except.error _ => none

/-- The number of bytes the decoder consumed for the chunk. -/
def bytesConsumed
    (r : Except Unit (ChunkState × Option RtmpPacket × Option Nat × Nat)) :
    Option Nat :=
  match r with
  | Except.ok x => some x.2.2.2
  | Except.error _ => none

/-- The decoder state after the chunk. -/
def finalChunkState
    (r : Except Unit (ChunkState × Option RtmpPacket × Option Nat × Nat)) :
    Option ChunkState :=
  match r with
  | Except.ok x => some x.1
  | Except.error _ => none

/-- Concrete registry with a publisher on app `x` (claim C1). -/
def recW : LiveRecord :=
  { client_id := "pub1", stream_mode := "live", stream_path := "k",
    publish_stream_id := 1, app := "x" }

/-- Concrete `LiveUsers` with `recW` registered (claim C1). -/
def liveW : String → Option LiveRecord :=
  fun a => if a = "x" then some recW else none

/-- A second session attempting `publish` on app `x` (claim C1). -/
def pubSessW : PubSession :=
  { id := "sess2", app := "x", streamPath := "", publishStreamId := 0,
    publishStreamPath := "", stream_mode := "" }

/-- Concrete `PlayerUsers` with one player attached on app `live`. -/
def puW : String → Option (List String) :=
  fun a => if a = "live" then some ["p1"] else none

/-- A fresh publisher session on app `live`. -/
def pubMediaW : ClientMediaState := ClientMediaState.init "live"

/-- A legacy AVC VIDEO packet (type 9) carrying an inter frame. -/
def vPktW : RtmpPacket :=
  { fmt := 0, cid := 5, timestamp := 100, length := 5, type := 9,
    stream_id := 1, payload := [39, 1, 0, 0, 10] }

/-- An AAC AUDIO packet (type 8) carrying a live frame. -/
def aPktW : RtmpPacket :=
  { fmt := 0, cid := 4, timestamp := 200, length := 3, type := 8,
    stream_id := 1, payload := [175, 1, 9] }

/-- A DATA packet (type 18). -/
def dPktW : RtmpPacket :=
  { fmt := 0, cid := 6, timestamp := 300, length := 2, type := 18,
    stream_id := 1, payload := [2, 0] }

/-- A well-formed `onMetaData` object (claim C3). -/
def metaObjW : Amf0 :=
  Amf0.obj [("audiosamplerate", Amf0.num 44100), ("stereo", Amf0.boolean true),
            ("width", Amf0.num 1280), ("height", Amf0.num 720),
            ("framerate", Amf0.num 30), ("videodatarate", Amf0.num 2500)]

/-- Raw bytes of the publisher's `@setDataFrame` payload (opaque). -/
def mdBytesW : List Nat := List.replicate 20 1

/-- AAC sequence-header payload: 0xAF 0x00 then config bytes. -/
def aacHdrW : List Nat := [175, 0, 18, 16]

/-- AVC sequence-header payload: 0x17 0x00 then config bytes. -/
def avcHdrW : List Nat := [23, 0, 0, 0, 0, 1, 100]

/-- The AUDIO packet that latches `aacHdrW`. -/
def aacPktW : RtmpPacket :=
  { fmt := 0, cid := 4, timestamp := 0, length := 4, type := 8,
    stream_id := 1, payload := aacHdrW }

/-- The VIDEO packet that latches `avcHdrW`. -/
def avcPktW : RtmpPacket :=
  { fmt := 0, cid := 5, timestamp := 0, length := 7, type := 9,
    stream_id := 1, payload := avcHdrW }

/-- A live AUDIO frame sent after a player attached (claim C3). -/
def liveAudioW : RtmpPacket :=
  { fmt := 0, cid := 4, timestamp := 500, length := 3, type := 8,
    stream_id := 1, payload := [175, 1, 9] }

/-- Publisher state reached by actually running the three handlers on a
fresh session: `@setDataFrame onMetaData` through `handle_amf_data`, the
AAC header through `handle_audio_data` (latching `aacSequenceHeader`),
and the AVC header through `handle_video_data` (latching
`avcSequenceHeader`). -/
def pubLatchedW : ClientMediaState :=
  let s1 := (handle_amf_data (ClientMediaState.init "live") 18 20 mdBytesW
    [Amf0.str "@setDataFrame", Amf0.str "onMetaData", metaObjW]).1
  let s2 := (handle_audio_data (fun _ => none) s1 aacPktW).2.1
  (handle_video_data s2 avcPktW).2.1

/-- A fmt-0 chunk whose basic header uses the 3-byte form with
`b1 = b2 = 0` (claim C4). -/
def c4inputW : List Nat := [1, 0, 0, 0, 0, 1, 0, 0, 1, 8, 0, 0, 0, 0, 0]

/-- A fmt-0 chunk with timestamp field 0xFFFFFF followed by the 4-byte
extended timestamp 0x01020304 and a 1-byte AUDIO payload (claim C5). -/
def c5inputW : List Nat :=
  [3, 255, 255, 255, 0, 0, 1, 8, 0, 0, 0, 1, 1, 2, 3, 4, 175]

/-- Decoder state with acknowledgement window 10 (claim C7). -/
def c7stateW : ChunkState :=
  { ChunkState.init with window_acknowledgement_size := 10 }

/-- A single 25-byte chunk: 12 header bytes plus 13 payload bytes
(claim C7). -/
def c7inputW : List Nat :=
  [3, 0, 0, 1, 0, 0, 13, 8, 0, 0, 0, 1] ++ List.replicate 13 170

/-- A handshake transcript whose C0 byte is the invalid 0x04, followed by
an all-zero (simple-format) C1 and C2 (claim C8). -/
def c8inputW : List Nat := 4 :: List.replicate 3072 0

/-- A fmt-0 chunk whose 4-byte message stream id field is
01 00 00 00 (claim C9). -/
def c9inputW : List Nat := [4, 0, 0, 5, 0, 0, 2, 8, 1, 0, 0, 0, 171, 205]

/-- A connect-time session with the constructor defaults of
`ClientState.__init__`. -/
def connSessW : ConnectSession :=
  { app := "", tcUrl := "", swfUrl := "",
    flashVer := "FMLE/3.0 (compatible; FMSc/1.0)", objectEncoding := 0,
    out_chunk_size := 4096 }

/-- A connect command object carrying `app` and `objectEncoding`. -/
def cmdDataW : CmdData :=
  { app := some "live", tcUrl := some "rtmp://h/live", swfUrl := none,
    flashVer := none, objectEncoding := some 3 }

/-- C4: the two-byte basic-header form yields `64 + b` (within [64,319]
for a byte), but the three-byte form computes `(64 + b1 + b2) << 8`, not
the claimed `64 + b1 + 256 * b2`: decoding a chunk whose basic header is
01 00 00 emits CSID 16384 where the claim requires 64, and bytes
b1 = b2 = 255 give 146944, outside the claimed range [64,65599]. -/
theorem csid3_shift_bug :
    basicHeaderCsid2 0 = 64 ∧ basicHeaderCsid2 255 = 319 ∧
    (emittedPacket (get_chunk_data ChunkState.init c4inputW)).map RtmpPacket.cid
      = some 16384 ∧
    specCsid3 0 0 = 64 ∧
    basicHeaderCsid3 0 0 ≠ specCsid3 0 0 ∧
    basicHeaderCsid3 255 255 = 146944 ∧
    65599 < basicHeaderCsid3 255 255 := by
  decide

/-- C5: on a fmt-0 chunk with timestamp field 0xFFFFFF the decoder does
read 4 further bytes (17 bytes consumed in total) and stores 0x01020304
in the slot's `extended_timestamp`, but the message emitted to the
dispatcher carries timestamp 0xFFFFFF = 16777215, not the extended
value. -/
theorem extended_timestamp_dropped_bug :
    bytesConsumed (get_chunk_data ChunkState.init c5inputW) = some 17 ∧
    ((finalChunkState (get_chunk_data ChunkState.init c5inputW)).bind
      (fun s => (lookupSlot s.slots 3).map Slot.extended_timestamp))
      = some 16909060 ∧
    (emittedPacket (get_chunk_data ChunkState.init c5inputW)).map
      RtmpPacket.timestamp = some 16777215 ∧
    (emittedPacket (get_chunk_data ChunkState.init c5inputW)).map
      RtmpPacket.timestamp ≠ some 16909060 := by
  decide

/-- C9: the 4-byte message stream id of a fmt-0 chunk is parsed
big-endian like every other header integer — bytes 01 00 00 00 emit
stream id 16777216, not the little-endian value 1 the claim (and the
RTMP specification) prescribe; the timestamp and length fields of the
same chunk are parsed big-endian as claimed. -/
theorem stream_id_big_endian_bug :
    (emittedPacket (get_chunk_data ChunkState.init c9inputW)).map
      RtmpPacket.stream_id = some 16777216 ∧
    leVal [1, 0, 0, 0] = 1 ∧
    (emittedPacket (get_chunk_data ChunkState.init c9inputW)).map
      RtmpPacket.stream_id ≠ some (leVal [1, 0, 0, 0]) ∧
    (emittedPacket (get_chunk_data ChunkState.init c9inputW)).map
      RtmpPacket.timestamp = some 5 ∧
    (emittedPacket (get_chunk_data ChunkState.init c9inputW)).map
      RtmpPacket.length = some 2 := by
  decide

/-- C7 counterexample: with acknowledgement window 10, one 25-byte chunk
(12 header bytes, 13 payload bytes) makes the decoder emit exactly one
ACK (carrying 25), although the claim's `floor(B / W)` formula demands
`25 / 10 = 2` ACK messages for these 25 inbound bytes. -/
theorem ack_floor_cex :
    bytesConsumed (get_chunk_data c7stateW c7inputW) = some 25 ∧
    ackSent (get_chunk_data c7stateW c7inputW) = some 25 ∧
    (finalChunkState (get_chunk_data c7stateW c7inputW)).map
      ChunkState.inAckSize = some 25 ∧
    (ackFold 10 0 0 [25]).2.2 = 1 ∧
    25 / 10 = 2 ∧ (ackFold 10 0 0 [25]).2.2 ≠ 25 / 10 := by
  decide

/-- An all-zero C1 classifies as the simple message format. -/
lemma detect_replicate_zero (n : Nat) :
    detectClientMessageFormat (List.replicate n 0) = 0 := by
  unfold detectClientMessageFormat
  rw [List.drop_replicate, List.take_replicate, if_pos]
  apply List.all_eq_true.2
  intro x hx
  have hx0 := List.eq_of_mem_replicate hx
  simp [hx0]

/-- `readexactly` succeeds when enough input is available. -/
lemma readE_ok (l : List Nat) (n : Nat) (h : n ≤ l.length) :
    readE l n = Except.ok (l.take n, l.drop n) := by
  simp [readE, h]

/-- C8: when C0 is the invalid byte 0x04 the source closes the writer
but, lacking a return, continues the handshake: it reads the 1536-byte
C1 (1537 bytes consumed in total, not 1) and then dies when the first
`await self.send` raises `ConnectionResetError` from `drain` on the
closed transport — the session is torn down by that exception rather
than by an immediate handshake failure, no S0/S1/S2 bytes are delivered,
and C2 is never read.  The same transcript with the valid C0 = 0x03
completes the full handshake: 3073 bytes read and S0, S1, S2
delivered. -/
theorem handshake_continues_after_bad_c0 :
    perform_handshake c8inputW = ({ writerClosed := true, consumed := 1537,
                                    sent := [] }, true) ∧
    perform_handshake (3 :: List.replicate 3072 0) =
      ({ writerClosed := false, consumed := 3073,
         sent := [[3], List.replicate 1536 0, List.replicate 1536 0] }, false) ∧
    (4 : Nat) ≠ 3 ∧ (4 : Nat) ≠ 6 ∧ (1537 : Nat) ≠ 1 := by
  have h2 : readE (List.replicate 3072 0) 1536
      = Except.ok (List.replicate 1536 0, List.replicate 1536 0) := by
    rw [readE_ok _ _ (by simp only [List.length_replicate]; norm_num)]
    rw [List.take_replicate, List.drop_replicate]
    norm_num
  have h3 : readE (List.replicate 1536 0) 1536
      = Except.ok (List.replicate 1536 0, []) := by
    rw [readE_ok _ _ (by simp only [List.length_replicate]; exact le_refl 1536)]
    rw [List.take_replicate, List.drop_replicate]
    norm_num
  have hdet := detect_replicate_zero 1536
  refine ⟨?_, ?_, by decide, by decide, by decide⟩
  · have h1 : readE c8inputW 1 = Except.ok ([4], List.replicate 3072 0) := by
      rw [readE_ok _ _ (by simp only [c8inputW, List.length_cons, List.length_replicate]; norm_num)]
      simp only [c8inputW, List.take_succ_cons, List.take_zero, List.drop_succ_cons, List.drop_zero]
    have hsend : sendDrain (!((([4] : List Nat)) == [3] || [4] == [6])) [] [3]
        = Except.error () := rfl
    unfold perform_handshake
    rw [h1]
    dsimp only
    rw [h2]
    dsimp only
    rw [hdet]
    rw [if_pos (by trivial : (0:Nat) = 0)]
    rw [hsend]
    dsimp only
    simp only [c8inputW, List.length_cons, List.length_replicate]
    norm_num
  · have h1 : readE (3 :: List.replicate 3072 0) 1
        = Except.ok ([3], List.replicate 3072 0) := by
      rw [readE_ok _ _ (by simp only [List.length_cons, List.length_replicate]; norm_num)]
      simp only [List.take_succ_cons, List.take_zero, List.drop_succ_cons, List.drop_zero]
    have hs1 : sendDrain (!((([3] : List Nat)) == [3] || [3] == [6])) [] [3]
        = Except.ok [[3]] := rfl
    have hs2 : sendDrain (!((([3] : List Nat)) == [3] || [3] == [6])) [[3]]
        (List.replicate 1536 0) = Except.ok [[3], List.replicate 1536 0] := rfl
    have hs3 : sendDrain (!((([3] : List Nat)) == [3] || [3] == [6]))
        [[3], List.replicate 1536 0] (List.replicate 1536 0)
        = Except.ok [[3], List.replicate 1536 0, List.replicate 1536 0] := rfl
    unfold perform_handshake
    rw [h1]
    dsimp only
    rw [h2]
    dsimp only
    rw [hdet]
    rw [if_pos (by trivial : (0:Nat) = 0)]
    rw [hs1]
    dsimp only
    rw [hs2]
    dsimp only
    rw [h3]
    dsimp only
    rw [hs3]
    dsimp only
    simp only [List.length_cons, List.length_replicate, List.length_nil]
    norm_num


/-- C1: a `publish` on an app that already has a registered publisher is
answered with an onStatus of level `error` and code
`NetStream.Publish.BadName`, the offending session is disconnected, and
the registry — in particular the first publisher's record — is left
unchanged; since `LiveUsers` maps each app to at most one record, at most
one session is registered as publisher per app at any time. -/
theorem publish_second_rejected (live : String → Option LiveRecord)
    (st : PubSession) (args : List String) (sid : Nat) (r : LiveRecord)
    (hrec : live st.app = some r) (hid : r.client_id ≠ "") (hargs : args ≠ []) :
    (handle_publish live st args sid).live = live ∧
    (handle_publish live st args sid).live st.app = some r ∧
    (handle_publish live st args sid).sent =
      [{ sid := sid, level := "error", code := "NetStream.Publish.BadName",
         description := "Stream already publishing" }] ∧
    (handle_publish live st args sid).disconnected = true := by
  cases args with
  | nil => exact absurd rfl hargs
  | cons k ks =>
    have hpub : liveHasPublisher live st.app = true := by
      simp [liveHasPublisher, hrec, hid]
    simp [handle_publish, hpub, hrec]

/-- Witness for C1 at a concrete registry, session and arguments. -/
theorem publish_second_rejected_witness :
    liveW pubSessW.app = some recW ∧ recW.client_id ≠ "" ∧
    (["key"] : List String) ≠ [] ∧
    ((handle_publish liveW pubSessW ["key"] 7).live = liveW ∧
     (handle_publish liveW pubSessW ["key"] 7).live pubSessW.app = some recW ∧
     (handle_publish liveW pubSessW ["key"] 7).sent =
       [{ sid := 7, level := "error", code := "NetStream.Publish.BadName",
          description := "Stream already publishing" }] ∧
     (handle_publish liveW pubSessW ["key"] 7).disconnected = true) :=
  ⟨by decide, by decide, by decide,
   publish_second_rejected liveW pubSessW ["key"] 7 recW (by decide) (by decide)
     (by decide)⟩

/-- `handle_video_data` sends nothing to any player: its relay block is
commented out in the source. -/
lemma video_sends_nil (st : ClientMediaState) (pkt : RtmpPacket) :
    (handle_video_data st pkt).1 = [] := by
  unfold handle_video_data
  cases hh : pkt.payload.head? with
  | none => simp only [hh]
  | some b0 =>
    simp only [hh]
    repeat' split
    all_goals rfl

/-- C2 counterexample: with a player attached on app `live`, a VIDEO
(type 9) message and a DATA (type 18) message are relayed to nobody. -/
theorem video_not_relayed_cex :
    puW pubMediaW.app = some ["p1"] ∧ vPktW.type = 9 ∧
    mediaRelaySends puW pubMediaW vPktW = [] ∧
    dPktW.type = 18 ∧ mediaRelaySends puW pubMediaW dPktW = [] := by
  decide

/-- C2 (amended): only AUDIO (type 8) messages are relayed; each goes to
every player registered for the session's app with the same type,
timestamp, payload and length, but with the publisher's stream id — it is
not rewritten to the player's subscribed stream id.  VIDEO (type 9) and
DATA (type 18) messages are relayed to nobody. -/
theorem audio_only_relay (pu : String → Option (List String))
    (st : ClientMediaState) (pkt : RtmpPacket) (players : List String)
    (hpu : pu st.app = some players) (hne : players ≠ []) (h8 : pkt.type = 8) :
    mediaRelaySends pu st pkt
      = players.map (fun pid => (pid, RTMPMessage.ofPacket pkt)) ∧
    (RTMPMessage.ofPacket pkt).type = pkt.type ∧
    (RTMPMessage.ofPacket pkt).time = pkt.timestamp ∧
    (RTMPMessage.ofPacket pkt).data = pkt.payload ∧
    (RTMPMessage.ofPacket pkt).size = pkt.length ∧
    (RTMPMessage.ofPacket pkt).streamId = pkt.stream_id ∧
    (∀ q : RtmpPacket, q.type = 9 ∨ q.type = 18 →
      mediaRelaySends pu st q = []) := by
  refine ⟨?_, rfl, rfl, rfl, rfl, rfl, ?_⟩
  · simp [mediaRelaySends, h8, handle_audio_data, hpu, hne]
  · intro q hq
    rcases hq with h9 | h18
    · simp [mediaRelaySends, h9, video_sends_nil]
    · simp [mediaRelaySends, h18]

/-- Witness for the amended C2 at a concrete player table and packet. -/
theorem audio_only_relay_witness :
    puW pubMediaW.app = some ["p1"] ∧ (["p1"] : List String) ≠ [] ∧
    aPktW.type = 8 ∧
    (mediaRelaySends puW pubMediaW aPktW
       = (["p1"] : List String).map (fun pid => (pid, RTMPMessage.ofPacket aPktW)) ∧
     (RTMPMessage.ofPacket aPktW).type = aPktW.type ∧
     (RTMPMessage.ofPacket aPktW).time = aPktW.timestamp ∧
     (RTMPMessage.ofPacket aPktW).data = aPktW.payload ∧
     (RTMPMessage.ofPacket aPktW).size = aPktW.length ∧
     (RTMPMessage.ofPacket aPktW).streamId = aPktW.stream_id ∧
     (∀ q : RtmpPacket, q.type = 9 ∨ q.type = 18 →
       mediaRelaySends puW pubMediaW q = [])) :=
  ⟨by decide, by decide, by decide,
   audio_only_relay puW pubMediaW aPktW ["p1"] (by decide) (by decide) (by decide)⟩

/-- C3 counterexample: a publisher that latched metadata, the AAC header
and the AVC header (by running the actual handlers) still yields a player
trace — attach-time sends followed by one relayed live frame — in which
the live frame is not preceded by the AAC sequence-header bytes: the
headers are never replayed to a new player. -/
theorem play_no_seq_headers_cex :
    pubLatchedW.aacSequenceHeader = some aacHdrW ∧
    pubLatchedW.avcSequenceHeader = some avcHdrW ∧
    pubLatchedW.metaDataPayload.isSome = true ∧
    seqHdrPrecedes aacHdrW false (playerReceives pubLatchedW 1 [liveAudioW])
      = false := by
  decide

/-- C3 (amended): a player attaching to a publisher with latched metadata
receives the `onMetaData` message first, before every relayed live frame;
but the attach-time sends of `handle_onPlay` contain no raw media message
at all — in particular neither the audio nor the video sequence-header
bytes are ever replayed to the new player. -/
theorem play_metadata_first (pub : ClientMediaState) (sid : Nat)
    (frames : List RtmpPacket) (h : pub.metaDataPayload.isSome = true) :
    playerReceives pub sid frames
      = OutMsg.meta sid pub.metaData
        :: frames.map (fun p => OutMsg.media (RTMPMessage.ofPacket p)) ∧
    (∀ m ∈ onPlaySends pub sid, ∀ r : RTMPMessage, m ≠ OutMsg.media r) := by
  obtain ⟨x, hx⟩ := Option.isSome_iff_exists.mp h
  constructor
  · simp [playerReceives, onPlaySends, hx]
  · intro m hm r
    simp only [onPlaySends, hx, List.mem_singleton] at hm
    subst hm
    exact fun hc => OutMsg.noConfusion hc

/-- Witness for the amended C3 at the concrete latched publisher. -/
theorem play_metadata_first_witness :
    pubLatchedW.metaDataPayload.isSome = true ∧
    (playerReceives pubLatchedW 1 [liveAudioW]
       = OutMsg.meta 1 pubLatchedW.metaData
         :: [liveAudioW].map (fun p => OutMsg.media (RTMPMessage.ofPacket p)) ∧
     (∀ m ∈ onPlaySends pubLatchedW 1, ∀ r : RTMPMessage,
       m ≠ OutMsg.media r)) :=
  ⟨by decide, play_metadata_first pubLatchedW 1 [liveAudioW] (by decide)⟩

/-- `applyConnectRest` never touches `out_chunk_size`. -/
lemma applyConnectRest_out_chunk_size (st : ConnectSession) (cd : CmdData) :
    (applyConnectRest st cd).out_chunk_size = st.out_chunk_size := by
  unfold applyConnectRest
  cases cd.tcUrl <;> cases cd.swfUrl <;> cases cd.flashVer <;>
    cases cd.objectEncoding <;> rfl

/-- `applyConnectApp` never touches `out_chunk_size`. -/
lemma applyConnectApp_out_chunk_size (st : ConnectSession) (cd : CmdData) :
    (applyConnectApp st cd).out_chunk_size = st.out_chunk_size := by
  unfold applyConnectApp
  cases cd.app <;> rfl

/-- C6: on a `connect` whose effective app is non-empty, the server sends,
in order, WINDOW_ACK_SIZE(5000000), SET_CHUNK_SIZE(out_chunk_size),
SET_PEER_BANDWIDTH(5000000, type 2), and the `_result` for the same
transaction id with level `status`, code `NetConnection.Connect.Success`,
description `Connection succeeded.`, fmsVer `MasterStream/8,2`,
capabilities 31 and the session's objectEncoding; the raw buffers carry
message type bytes 5, 1 and 6 and the stated values big-endian. -/
theorem connect_response_sequence (st : ConnectSession) (cd : CmdData)
    (tid : Nat) (happ : (applyConnectApp st cd).app ≠ "") :
    handle_connect_command st cd tid = Except.ok (connectAppliedState st cd,
      [ConnectSent.raw (send_window_ack_bytes 5000000),
       ConnectSent.raw (set_chunk_size_bytes st.out_chunk_size),
       ConnectSent.raw (set_peer_bandwidth_bytes 5000000 2),
       ConnectSent.result tid
         { level := "status", code := "NetConnection.Connect.Success",
           description := "Connection succeeded.",
           fmsVer := "MasterStream/8,2", capabilities := 31,
           objectEncoding := (connectAppliedState st cd).objectEncoding }]) ∧
    byteAt (send_window_ack_bytes 5000000) 7 = 5 ∧
    beVal ((send_window_ack_bytes 5000000).drop 12) = 5000000 ∧
    byteAt (set_chunk_size_bytes st.out_chunk_size) 7 = 1 ∧
    set_chunk_size_bytes st.out_chunk_size
      = [2, 0, 0, 0, 0, 0, 4, 1, 0, 0, 0, 0] ++ natToBytes4BE st.out_chunk_size ∧
    byteAt (set_peer_bandwidth_bytes 5000000 2) 7 = 6 ∧
    beVal (((set_peer_bandwidth_bytes 5000000 2).drop 12).take 4) = 5000000 ∧
    byteAt (set_peer_bandwidth_bytes 5000000 2) 16 = 2 := by
  have hout : (applyConnectRest (applyConnectApp st cd) cd).out_chunk_size
      = st.out_chunk_size := by
    rw [applyConnectRest_out_chunk_size, applyConnectApp_out_chunk_size]
  refine ⟨?_, by decide, by decide, ?_, rfl, by decide, by decide, by decide⟩
  · unfold handle_connect_command connectAppliedState
    rw [if_neg happ]
    simp only [hout]
  · rw [set_chunk_size_bytes]
    rfl

/-- Witness for C6 at a concrete session and command object. -/
theorem connect_response_sequence_witness :
    (applyConnectApp connSessW cmdDataW).app ≠ "" ∧
    (handle_connect_command connSessW cmdDataW 1
       = Except.ok (connectAppliedState connSessW cmdDataW,
      [ConnectSent.raw (send_window_ack_bytes 5000000),
       ConnectSent.raw (set_chunk_size_bytes connSessW.out_chunk_size),
       ConnectSent.raw (set_peer_bandwidth_bytes 5000000 2),
       ConnectSent.result 1
         { level := "status", code := "NetConnection.Connect.Success",
           description := "Connection succeeded.",
           fmsVer := "MasterStream/8,2", capabilities := 31,
           objectEncoding := (connectAppliedState connSessW cmdDataW).objectEncoding }]) ∧
     byteAt (send_window_ack_bytes 5000000) 7 = 5 ∧
     beVal ((send_window_ack_bytes 5000000).drop 12) = 5000000 ∧
     byteAt (set_chunk_size_bytes connSessW.out_chunk_size) 7 = 1 ∧
     set_chunk_size_bytes connSessW.out_chunk_size
       = [2, 0, 0, 0, 0, 0, 4, 1, 0, 0, 0, 0]
         ++ natToBytes4BE connSessW.out_chunk_size ∧
     byteAt (set_peer_bandwidth_bytes 5000000 2) 7 = 6 ∧
     beVal (((set_peer_bandwidth_bytes 5000000 2).drop 12).take 4) = 5000000 ∧
     byteAt (set_peer_bandwidth_bytes 5000000 2) 16 = 2) :=
  ⟨by decide, connect_response_sequence connSessW cmdDataW 1 (by decide)⟩

/-- Each ACK advances `inLastAck` to the current `inAckSize`, so `k` ACKs
require at least `k * w` bytes (below the wrap threshold). -/
lemma ackFold_count_le (w : Nat) (hw : 0 < w) :
    ∀ (chunks : List Nat) (a l : Nat), l ≤ a →
      a + chunks.sum < 4026531840 →
      (ackFold w a l chunks).2.2 * w + l ≤ a + chunks.sum := by
  intro chunks
  induction chunks with
  | nil =>
    intro a l hla _
    simpa [ackFold] using hla
  | cons n rest ih =>
    intro a l hla hlt
    have hsum : (n :: rest).sum = n + rest.sum := List.sum_cons
    rw [hsum] at hlt ⊢
    have hwrap : ¬ 4026531840 ≤ a + n := by omega
    by_cases hack : 0 < w ∧ w ≤ a + n - l
    · have hstep : ackAccount w a l n = (a + n, a + n, true) := by
        simp [ackAccount, hwrap, hack]
      simp only [ackFold, hstep]
      have hr := ih (a + n) (a + n) le_rfl (by omega)
      have hwl : w + l ≤ a + n := by omega
      calc ((ackFold w (a + n) (a + n) rest).2.2 + 1) * w + l
          = (ackFold w (a + n) (a + n) rest).2.2 * w + (w + l) := by ring
        _ ≤ (ackFold w (a + n) (a + n) rest).2.2 * w + (a + n) :=
            Nat.add_le_add_left hwl _
        _ ≤ a + n + rest.sum := hr
        _ = a + (n + rest.sum) := by ring
    · have hstep : ackAccount w a l n = (a + n, l, false) := by
        simp [ackAccount, hwrap, hack]
      simp only [ackFold, hstep]
      have hr := ih (a + n) l (by omega) (by omega)
      calc (ackFold w (a + n) l rest).2.2 * w + 0 + l
          = (ackFold w (a + n) l rest).2.2 * w + l := by ring
        _ ≤ a + n + rest.sum := hr
        _ = a + (n + rest.sum) := by ring

/-- When every chunk contributes exactly `w` bytes, every chunk triggers
exactly one ACK. -/
lemma ackFold_replicate_eq (w : Nat) (hw : 0 < w) :
    ∀ (m a : Nat), a + m * w < 4026531840 →
      (ackFold w a a (List.replicate m w)).2.2 = m := by
  intro m
  induction m with
  | zero =>
    intro a _
    simp [ackFold]
  | succ k ih =>
    intro a hlt
    have hlt' : a + w + k * w < 4026531840 := by
      have hmul : a + (k + 1) * w = a + w + k * w := by ring
      rw [hmul] at hlt
      exact hlt
    have hwrap : ¬ 4026531840 ≤ a + w := by omega
    have hack : 0 < w ∧ w ≤ a + w - a := ⟨hw, by omega⟩
    have hstep : ackAccount w a a w = (a + w, a + w, true) := by
      simp [ackAccount, hwrap, hack]
    simp only [List.replicate_succ, ackFold, hstep]
    rw [ih (a + w) hlt']
    simp

/-- C7 (amended): every chunk's bytes (header and payload) are added to
`inAckSize`, and after each payload-carrying chunk at most one ACK, whose
value is `inAckSize`, is sent when the un-acknowledged span reaches the
window; consequently `B` inbound bytes with window `w` produce at most
`B / w` ACK messages (not exactly `B / w`), with equality when every
chunk contributes exactly `w` bytes — all below the 0xF0000000 wrap. -/
theorem ack_count_bound (w m : Nat) (chunks : List Nat) (hw : 0 < w)
    (hB : chunks.sum < 4026531840) (hm : m * w < 4026531840) :
    (ackFold w 0 0 chunks).2.2 ≤ chunks.sum / w ∧
    (ackFold w 0 0 (List.replicate m w)).2.2 = m := by
  constructor
  · have h := ackFold_count_le w hw chunks 0 0 le_rfl (by simpa using hB)
    rw [Nat.le_div_iff_mul_le hw]
    simpa using h
  · exact ackFold_replicate_eq w hw m 0 (by simpa using hm)

/-- Witness for the amended C7: window 10 with one 25-byte chunk — at
most 2 ACKs (the counterexample shows exactly 1) — and three 10-byte
chunks giving exactly 3 ACKs. -/
theorem ack_count_bound_witness :
    (0 : Nat) < 10 ∧ ([25] : List Nat).sum < 4026531840 ∧
    3 * 10 < 4026531840 ∧
    ((ackFold 10 0 0 [25]).2.2 ≤ ([25] : List Nat).sum / 10 ∧
     (ackFold 10 0 0 (List.replicate 3 10)).2.2 = 3) :=
  ⟨by decide, by decide, by decide,
   ack_count_bound 10 3 [25] (by decide) (by decide) (by decide)⟩

/-- C10: a DATA (type 18) message whose first AMF0 value is not the
string `@setDataFrame` makes `handle_amf_data` raise (the `dataObj` read
of line 1134 was never set), which tears the session down via the blanket
handler of `get_chunk_data`; and the session's `metaDataPayload` has
already been overwritten with the message's payload slice before the
failure, while `metaData` is still the old value — the failure is not
atomic. -/
theorem amf_data_error_nonatomic (st : ClientMediaState) (len : Nat)
    (payload : List Nat) (v : Amf0) (rest : List Amf0)
    (hv : amfIsStr v "@setDataFrame" = false) :
    (handle_amf_data st 18 len payload (v :: rest)).2 = true ∧
    (handle_amf_data st 18 len payload (v :: rest)).1.metaDataPayload
      = some (payload.take len) ∧
    (handle_amf_data st 18 len payload (v :: rest)).1.metaData
      = st.metaData := by
  simp [handle_amf_data, hv, assignMeta]

/-- Witness for C10 at a concrete session and DATA message. -/
theorem amf_data_error_nonatomic_witness :
    amfIsStr (Amf0.str "foo") "@setDataFrame" = false ∧
    ((handle_amf_data (ClientMediaState.init "live") 18 3 [1, 2, 3, 4]
        [Amf0.str "foo"]).2 = true ∧
     (handle_amf_data (ClientMediaState.init "live") 18 3 [1, 2, 3, 4]
        [Amf0.str "foo"]).1.metaDataPayload = some ([1, 2, 3, 4].take 3) ∧
     (handle_amf_data (ClientMediaState.init "live") 18 3 [1, 2, 3, 4]
        [Amf0.str "foo"]).1.metaData = (ClientMediaState.init "live").metaData) :=
  ⟨by decide,
   amf_data_error_nonatomic (ClientMediaState.init "live") 3 [1, 2, 3, 4]
     (Amf0.str "foo") [] (by decide)⟩

end RtmpServer
